import Mathlib

/-!
Verification of the mesh ingestion and normalization pipeline of the
iForge price-quoter (src/src/components/ModelViewer.tsx and
src/src/components/PrintPreviewModal.tsx).

The embedding represents geometries as flat triangle-soup vertex lists
(the `position` buffer attribute of a `THREE.BufferGeometry`), with
coordinates in `ℚ`.  JavaScript floating-point numbers are modelled as
exact rationals; the only place where IEEE special values matter
(`40 / 0 = Infinity` inside `Math.min(40 / maxDimension, 1)`) is modelled
explicitly by a case split, mirroring the JavaScript evaluation result.
-/

namespace PriceQuoter

/-- A 3D point, mirroring `THREE.Vector3` coordinates (float64 in the
source, modelled as exact rationals). -/
structure Vec3 where
  x : ℚ
  y : ℚ
  z : ℚ
deriving DecidableEq, Repr

instance : Inhabited Vec3 := ⟨⟨0, 0, 0⟩⟩

/-- A geometry's flattened `position` attribute: the vertices of the
triangle soup in buffer order (three consecutive entries form one
triangle). -/
abbrev Mesh := List Vec3

/-- Minimum of a list of rationals; `THREE.Box3` folds `Math.min` over the
coordinates.  Junk value `0` on the empty list (an empty geometry's box is
a special "empty box" in three.js; no claim concerns that case). -/
def listMin : List ℚ → ℚ
  | [] => 0
  | a :: l => l.foldl min a

/-- Maximum of a list of rationals, matching `listMin`. -/
def listMax : List ℚ → ℚ
  | [] => 0
  | a :: l => l.foldl max a

/-- The x-coordinates of a mesh, in order. -/
def xsOf (m : Mesh) : List ℚ := m.map Vec3.x

/-- The y-coordinates of a mesh, in order. -/
def ysOf (m : Mesh) : List ℚ := m.map Vec3.y

/-- The z-coordinates of a mesh, in order. -/
def zsOf (m : Mesh) : List ℚ := m.map Vec3.z

/-- `boundingBox.min.x` after `computeBoundingBox()`. -/
def bbMinX (m : Mesh) : ℚ := listMin (xsOf m)

/-- `boundingBox.max.x`. -/
def bbMaxX (m : Mesh) : ℚ := listMax (xsOf m)

/-- `boundingBox.min.y`. -/
def bbMinY (m : Mesh) : ℚ := listMin (ysOf m)

/-- `boundingBox.max.y`. -/
def bbMaxY (m : Mesh) : ℚ := listMax (ysOf m)

/-- `boundingBox.min.z`. -/
def bbMinZ (m : Mesh) : ℚ := listMin (zsOf m)

/-- `boundingBox.max.z`. -/
def bbMaxZ (m : Mesh) : ℚ := listMax (zsOf m)

/-- `box.getSize(...).x`. -/
def sizeX (m : Mesh) : ℚ := bbMaxX m - bbMinX m

/-- `box.getSize(...).y`. -/
def sizeY (m : Mesh) : ℚ := bbMaxY m - bbMinY m

/-- `box.getSize(...).z`. -/
def sizeZ (m : Mesh) : ℚ := bbMaxZ m - bbMinZ m

/-- `Math.max(size.x, size.y, size.z)` in `loadModel`
(ModelViewer.tsx line 61). -/
def maxDimension (m : Mesh) : ℚ := max (max (sizeX m) (sizeY m)) (sizeZ m)

/-- `geom.translate(t.x, t.y, t.z)`: add the offset to every vertex. -/
def translateMesh (t : Vec3) (m : Mesh) : Mesh :=
  m.map fun v => ⟨v.x + t.x, v.y + t.y, v.z + t.z⟩

/-- `geometry.scale(s, s, s)`: multiply every coordinate by `s`. -/
def scaleMesh (s : ℚ) (m : Mesh) : Mesh :=
  m.map fun v => ⟨s * v.x, s * v.y, s * v.z⟩

/-- `box.getCenter(...).x = (min.x + max.x) / 2`. -/
def centerX (m : Mesh) : ℚ := (bbMinX m + bbMaxX m) / 2

/-- `box.getCenter(...).z`. -/
def centerZ (m : Mesh) : ℚ := (bbMinZ m + bbMaxZ m) / 2

/-- `positionOnPrintBed` (ModelViewer.tsx lines 18-23): recompute the
bounding box and translate by `(-center.x, -box.min.y, -center.z)`. -/
def positionOnPrintBed (m : Mesh) : Mesh :=
  translateMesh ⟨-(centerX m), -(bbMinY m), -(centerZ m)⟩ m

/-- The scale factor `Math.min(40 / maxDimension, 1)` of
`loadModel` (ModelViewer.tsx line 64).  When `maxDimension = 0`,
JavaScript evaluates `40 / 0` to `Infinity` and `Math.min(Infinity, 1)`
to `1`; that branch is written out explicitly because rational division
by zero does not produce an infinity. -/
def bedScale (m : Mesh) : ℚ :=
  let d := maxDimension m
  if d = 0 then 1 else min (40 / d) 1

/-- The normalization performed by `loadModel` on a successfully decoded
geometry (ModelViewer.tsx lines 56-68): scale by `bedScale`, then
`positionOnPrintBed`. -/
def loadNormalize (m : Mesh) : Mesh :=
  positionOnPrintBed (scaleMesh (bedScale m) m)

/-- Two triangles forming one rectangle face of a box. -/
def quadFace (a b c d : Vec3) : List Vec3 := [a, b, c, a, c, d]

/-- The triangle soup of `new THREE.BoxGeometry(s, s, s)` (the fallback
placeholder): an axis-aligned cube of side `s` centered at the origin,
each face split into two triangles.  (three.js builds it as an indexed
24-vertex geometry; the de-indexed soup below has the same triangles and
the same bounding box, which is all the pipeline observes.) -/
def boxGeometry (s : ℚ) : Mesh :=
  let h := s / 2
  quadFace ⟨-h, -h,  h⟩ ⟨ h, -h,  h⟩ ⟨ h,  h,  h⟩ ⟨-h,  h,  h⟩ ++
  quadFace ⟨ h, -h, -h⟩ ⟨-h, -h, -h⟩ ⟨-h,  h, -h⟩ ⟨ h,  h, -h⟩ ++
  quadFace ⟨ h, -h,  h⟩ ⟨ h, -h, -h⟩ ⟨ h,  h, -h⟩ ⟨ h,  h,  h⟩ ++
  quadFace ⟨-h, -h, -h⟩ ⟨-h, -h,  h⟩ ⟨-h,  h,  h⟩ ⟨-h,  h, -h⟩ ++
  quadFace ⟨-h,  h,  h⟩ ⟨ h,  h,  h⟩ ⟨ h,  h, -h⟩ ⟨-h,  h, -h⟩ ++
  quadFace ⟨-h, -h, -h⟩ ⟨ h, -h, -h⟩ ⟨ h, -h,  h⟩ ⟨-h, -h,  h⟩

/-! ### Binary STL decoding (ModelViewer.tsx `parseSTL`, lines 109-145) -/

/-- One byte of the input `ArrayBuffer` (junk `0` out of range; `parseSTL`
below only reads inside the guarded range, mirroring the `DataView`
bounds checks). -/
def byteAt (buf : List ℕ) (off : ℕ) : ℕ := buf.getD off 0

/-- `dataView.getUint32(off, true)`: four bytes, little-endian. -/
def getUint32 (buf : List ℕ) (off : ℕ) : ℕ :=
  byteAt buf off + 2 ^ 8 * byteAt buf (off + 1) +
    2 ^ 16 * byteAt buf (off + 2) + 2 ^ 24 * byteAt buf (off + 3)

/-- The rational value of an IEEE-754 binary32 bit pattern.  The
`exponent = 255` patterns (infinities and NaNs) have no rational value
and are mapped to the junk value `0`; no claim evaluates the decoder on
such bytes.  Float rounding is otherwise exact: every finite binary32
value is a rational. -/
def decodeF32 (bits : ℕ) : ℚ :=
  let sgn : ℚ := if bits / 2 ^ 31 % 2 = 1 then -1 else 1
  let e : ℕ := bits / 2 ^ 23 % 2 ^ 8
  let mant : ℕ := bits % 2 ^ 23
  if e = 0 then sgn * ((mant : ℚ) / ((2 ^ 23 : ℕ) : ℚ)) / ((2 ^ 126 : ℕ) : ℚ)
  else if e = 255 then 0
  else if 127 ≤ e then
    sgn * (1 + (mant : ℚ) / ((2 ^ 23 : ℕ) : ℚ)) * ((2 ^ (e - 127) : ℕ) : ℚ)
  else sgn * (1 + (mant : ℚ) / ((2 ^ 23 : ℕ) : ℚ)) / ((2 ^ (127 - e) : ℕ) : ℚ)

/-- `dataView.getFloat32(off, true)`. -/
def getFloat32 (buf : List ℕ) (off : ℕ) : ℚ := decodeF32 (getUint32 buf off)

/-- The vertex stored at byte offset `off`: three little-endian float32
values. -/
def stlVertexAt (buf : List ℕ) (off : ℕ) : Vec3 :=
  ⟨getFloat32 buf off, getFloat32 buf (off + 4), getFloat32 buf (off + 8)⟩

/-- The three vertices of STL triangle `i`: record `i` starts at byte
`84 + i * 50`, with 12 bytes of face normal before the 36-byte vertex
block.  (The replicated per-vertex `normal` attribute built by the source
is not part of the position model; no claim concerns normals.) -/
def stlTriangle (buf : List ℕ) (i : ℕ) : List Vec3 :=
  [stlVertexAt buf (84 + i * 50 + 12),
   stlVertexAt buf (84 + i * 50 + 24),
   stlVertexAt buf (84 + i * 50 + 36)]

/-- `parseSTL` (ModelViewer.tsx lines 109-145).  The source throws a
`RangeError` (caught by `loadModel`) at the first out-of-bounds
`DataView` read; at the level of the decode result this is equivalent to
the up-front guards below: `getUint32(80)` needs 84 bytes, and the last
byte actually read belongs to the third vertex of the last triangle, at
offset `84 + n*50 - 3` (the trailing 2-byte attribute count is skipped
with `offset += 2`, never read). -/
def parseSTL (buf : List ℕ) : Except Unit Mesh :=
  if 84 ≤ buf.length then
    let n := getUint32 buf 80
    if 84 + n * 50 - 2 ≤ buf.length then
      Except.ok ((List.range n).flatMap (stlTriangle buf))
    else Except.error ()
  else Except.error ()

/-- The `.stl` branch of `loadModel` together with its `catch`
(ModelViewer.tsx lines 34-37, 56-77): a successful parse is normalized
(scale-to-fit then bed positioning); a thrown parse error falls back to a
20-unit placeholder cube that is only bed-positioned. -/
def loadSTL (buf : List ℕ) : Mesh :=
  match parseSTL buf with
  | Except.ok g => loadNormalize g
  | Except.error _ => positionOnPrintBed (boxGeometry 20)

/-- The branch of `loadModel` for extensions outside `stl/obj/3mf`
(ModelViewer.tsx lines 51-54): the placeholder cube goes through the
normal scale-and-position path. -/
def loadOtherFormat : Mesh := loadNormalize (boxGeometry 20)

/-! ### Text OBJ decoding (ModelViewer.tsx `parseOBJ`, lines 148-201) -/

/-- JavaScript `String.prototype.split` on a character predicate:
`n` separator characters produce `n + 1` fields.  (Defined over character
lists so that concrete decodes reduce in the kernel.) -/
def splitChars (p : Char → Bool) : List Char → List (List Char)
  | [] => [[]]
  | c :: rest =>
      match splitChars p rest with
      | [] => [[]]
      | h :: t => if p c then [] :: h :: t else (c :: h) :: t

/-- `s.trim()`: strip whitespace from both ends. -/
def trimChars (cs : List Char) : List Char :=
  ((cs.dropWhile Char.isWhitespace).reverse.dropWhile Char.isWhitespace).reverse

/-- `line.trim().split(/\s+/)`, as the non-empty tokens of the line.
(On a blank line JavaScript yields `[""]` whose head is neither `"v"` nor
`"f"`, and this model yields `[]`; both fall through to the skip case.) -/
def jsWords (line : List Char) : List (List Char) :=
  (splitChars Char.isWhitespace (trimChars line)).filter fun s => s ≠ []

/-- Leading decimal digits of a character list, `none` when there are
none (JavaScript `NaN`). -/
def leadDigits (cs : List Char) : Option ℕ :=
  let ds := cs.takeWhile Char.isDigit
  if ds.isEmpty then none
  else some (ds.foldl (fun a c => 10 * a + (c.toNat - 48)) 0)

/-- `parseInt(s)` restricted to base 10: skip leading whitespace, then an
optional sign and leading digits; `none` models `NaN`. -/
def parseIntJS (s : List Char) : Option ℤ :=
  match s.dropWhile Char.isWhitespace with
  | '-' :: rest => (leadDigits rest).map fun n => -(n : ℤ)
  | '+' :: rest => (leadDigits rest).map fun n => (n : ℤ)
  | cs => (leadDigits cs).map fun n => (n : ℤ)

/-- Value of a fraction-digit list: `digitsFracVal` of `['2', '5']` is
`1/4`. -/
def digitsFracVal (ds : List Char) : ℚ :=
  (((ds.foldl (fun a c => 10 * a + (c.toNat - 48)) 0 : ℕ) : ℚ)) /
    ((10 ^ ds.length : ℕ) : ℚ)

/-- The numeric value of unsigned decimal notation (integer digits,
optional fraction). -/
def decimalVal (cs : List Char) : ℚ :=
  let intDs := cs.takeWhile Char.isDigit
  let rest := cs.dropWhile Char.isDigit
  let intVal : ℚ := ((intDs.foldl (fun a c => 10 * a + (c.toNat - 48)) 0 : ℕ) : ℚ)
  match rest with
  | '.' :: frac => intVal + digitsFracVal (frac.takeWhile Char.isDigit)
  | _ => intVal

/-- `parseFloat(s)` for plain decimal notation (optional sign, integer
digits, optional fraction).  Strings with no leading numeric prefix give
JavaScript `NaN`, which has no rational counterpart; the junk value `0`
stands in (no claim feeds such a string to a `v` line). -/
def parseFloatJS (s : List Char) : ℚ :=
  match s.dropWhile Char.isWhitespace with
  | '-' :: rest => -(decimalVal rest)
  | '+' :: rest => decimalVal rest
  | cs => decimalVal cs

/-- `parseInt(part.split('/')[0]) - 1` (ModelViewer.tsx lines 168-171):
the 1-indexed position reference of one face token, converted to a
0-based index; `none` models a `NaN` index. -/
def objRefIndex (part : List Char) : Option ℤ :=
  (parseIntJS ((splitChars (fun c => c = '/') part).headD [])).map fun i => i - 1

/-- `tempVertices[i]` followed by reading `.x`: an index that is `NaN`,
negative, or past the end of the table yields `undefined`, and the
property read throws (caught by `loadModel`). -/
def objLookup (tv : List Vec3) : Option ℤ → Except Unit Vec3
  | none => Except.error ()
  | some i =>
      if h : 0 ≤ i ∧ i.toNat < tv.length then Except.ok (tv.get ⟨i.toNat, h.2⟩)
      else Except.error ()

/-- The face branch of `parseOBJ` (ModelViewer.tsx lines 166-194):
exactly 4 references emit the two triangles `(0,1,2)` and `(0,2,3)`;
exactly 3 emit one triangle; any other count emits nothing. -/
def emitFace (tv : List Vec3) (refs : List (List Char)) : Except Unit (List Vec3) :=
  match refs.map objRefIndex with
  | [i0, i1, i2, i3] => do
      let a ← objLookup tv i0
      let b ← objLookup tv i1
      let c ← objLookup tv i2
      let d ← objLookup tv i3
      Except.ok [a, b, c, a, c, d]
  | [i0, i1, i2] => do
      let a ← objLookup tv i0
      let b ← objLookup tv i1
      let c ← objLookup tv i2
      Except.ok [a, b, c]
  | _ => Except.ok []

/-- The running state of `parseOBJ`: the `tempVertices` table of parsed
`v` lines and the emitted `vertices` position buffer. -/
structure ObjState where
  tempVertices : List Vec3
  out : List Vec3
deriving DecidableEq, Repr

/-- Processing of one line of the OBJ text (body of the `for` loop,
ModelViewer.tsx lines 156-195). -/
def objLine (st : ObjState) (line : List Char) : Except Unit ObjState :=
  match jsWords line with
  | ['v'] :: rest =>
      Except.ok ⟨st.tempVertices ++
        [⟨parseFloatJS (rest.getD 0 []), parseFloatJS (rest.getD 1 []),
          parseFloatJS (rest.getD 2 [])⟩], st.out⟩
  | ['f'] :: refs =>
      (emitFace st.tempVertices refs).map fun tri => ⟨st.tempVertices, st.out ++ tri⟩
  | _ => Except.ok st

/-- `parseOBJ` over the already-split line list. -/
def parseOBJLines (ls : List (List Char)) : Except Unit Mesh :=
  (ls.foldlM objLine ⟨[], []⟩).map ObjState.out

/-- `parseOBJ` (ModelViewer.tsx lines 148-201): split the text on
newlines and fold the line processor.  An uncaught exception inside the
loop (an out-of-range face reference) aborts the decode. -/
def parseOBJ (text : String) : Except Unit Mesh :=
  parseOBJLines (splitChars (fun c => c = '\n') text.toList)

instance {ε α : Type} [DecidableEq ε] [DecidableEq α] : DecidableEq (Except ε α)
  | Except.ok a, Except.ok b =>
      if h : a = b then isTrue (by rw [h]) else isFalse (by simp [h])
  | Except.ok _, Except.error _ => isFalse (by simp)
  | Except.error _, Except.ok _ => isFalse (by simp)
  | Except.error a, Except.error b =>
      if h : a = b then isTrue (by rw [h]) else isFalse (by simp [h])

/-- The OBJ quad scenario input of the spec (section 8). -/
def objQuadText : String := "v 0 0 0\nv 1 0 0\nv 1 1 0\nv 0 1 0\nf 1 2 3 4"

/-- Twice the signed area of the projection of a triangle onto the
`z = 0` plane (positive for counter-clockwise winding seen from `+z`),
used to state the winding/coverage part of the OBJ quad scenario. -/
def signedAreaZ (a b c : Vec3) : ℚ :=
  ((b.x - a.x) * (c.y - a.y) - (b.y - a.y) * (c.x - a.x)) / 2

/-! ### 3MF conversion (ModelViewer.tsx `convert3MFToSTL`, lines 204-306)

The zip extraction (`JSZip`) and XML parsing (`DOMParser`) are external
collaborators; the model starts from the extracted vertex table and
triangle index triples.  The function re-encodes the kept triangles as an
exact binary STL buffer of `84 + 50 * k` bytes which `parseSTL` then
decodes back; at the level of which triangles survive — all the claims
ask about — the composition carries exactly the kept triangles' vertex
triples, which is what the model returns. -/

/-- The truthiness test `vertices[v1] && vertices[v2] && vertices[v3]`
(ModelViewer.tsx line 240): in-range indices yield `Vector3` objects
(always truthy), out-of-range ones `undefined`. -/
def inRange3MF (vs : List Vec3) (t : ℕ × ℕ × ℕ) : Bool :=
  decide (t.1 < vs.length) && decide (t.2.1 < vs.length) && decide (t.2.2 < vs.length)

/-- `convert3MFToSTL` from the extracted model data onward
(ModelViewer.tsx lines 231-248): keep exactly the triangles whose three
indices are in range; if none survive, return `null` (the caller then
substitutes the placeholder cube). -/
def convert3MFToSTL (vs : List Vec3) (ts : List (ℕ × ℕ × ℕ)) :
    Option (List (Vec3 × Vec3 × Vec3)) :=
  let kept := ts.filter (inRange3MF vs)
  if kept.isEmpty then none
  else some (kept.map fun t =>
    (vs.getD t.1 default, vs.getD t.2.1 default, vs.getD t.2.2 default))

/-! ### Print estimates (PrintPreviewModal.tsx, lines 38-130) -/

/-- `Math.round(x)`, which is `⌊x + 0.5⌋`. -/
def jsRound (q : ℚ) : ℤ := ⌊q + 1 / 2⌋

/-- `+x.toFixed(1)`: round to one decimal place (round-half-up on the
scaled value; the claims' inputs are not near ties, where the float
decimal representation could deviate). -/
def round1 (q : ℚ) : ℚ := ((jsRound (q * 10) : ℤ) : ℚ) / 10

/-- `computeMeshVolume` (PrintPreviewModal.tsx lines 117-130): sum
`dot(p1, cross(p2, p3)) / 6` over consecutive vertex triples.  A trailing
partial triple is not iterated (`i + 2 < count` fails in effect). -/
def signedVolumeSum : Mesh → ℚ
  | p1 :: p2 :: p3 :: rest =>
      (p1.x * (p2.y * p3.z - p2.z * p3.y) +
       p1.y * (p2.z * p3.x - p2.x * p3.z) +
       p1.z * (p2.x * p3.y - p2.y * p3.x)) / 6 + signedVolumeSum rest
  | _ => 0

/-- `computeMeshVolume`: absolute value of the signed tetrahedron sum. -/
def computeMeshVolume (g : Mesh) : ℚ := |signedVolumeSum g|

/-- `filamentTypes` (PrintPreviewModal.tsx lines 38-41). -/
def filamentFactor : String → ℚ
  | "PETG" => 1
  | "PLA" => 1.2
  | _ => 0

/-- The estimates record built by `reader.onload`
(PrintPreviewModal.tsx lines 82-106).  The `printTime` display string is
presentation of `printTimeMin`; the numeric value is modelled. -/
structure PrintEstimatesRec where
  printTimeMin : ℚ
  filamentUsed : ℚ
  costKES : ℤ
  width : ℚ
  height : ℚ
  depth : ℚ
deriving DecidableEq, Repr

/-- The estimate computation on a decoded geometry
(PrintPreviewModal.tsx lines 82-106).  Dimensions are taken from the
bounding box of the geometry exactly as the loader produced it. -/
def printEstimates (factor : ℚ) (g : Mesh) : PrintEstimatesRec :=
  let width := round1 (bbMaxX g - bbMinX g)
  let height := round1 (bbMaxY g - bbMinY g)
  let depth := round1 (bbMaxZ g - bbMinZ g)
  let volume := computeMeshVolume g
  let actualDensity := 1.24 * factor
  let filamentUsed := round1 (volume / 1000 * actualDensity)
  let printTimeMin := max 6 (volume / 15)
  ⟨printTimeMin, filamentUsed, jsRound (filamentUsed * 0.25 + printTimeMin * 0.3),
   width, height, depth⟩

/-- The outcome of one `reader.onload` estimates attempt
(PrintPreviewModal.tsx lines 59-112): only `stl` and `obj` inputs are
parsed (via the `STLLoader`/`OBJLoader` collaborators, whose outcome is
the `g` parameter); every other extension throws
`"Unsupported file type."`, and any throw is caught with only a log —
`setEstimates` is called only on success, so a failed attempt computes
no record (`none`). -/
def modalEstimates (ext : String) (g : Option Mesh) (factor : ℚ) :
    Option PrintEstimatesRec :=
  if ext = "stl" ∨ ext = "obj" then g.map (printEstimates factor)
  else none

/-- Modelled from the spec: "Output dimensions are the post-scale
bounding-box size, rounded to one decimal place" — the dimensions the
spec says the metrics record reports, computed from the bed-normalized
(scaled) geometry.  Used only to compare against the source's
`printEstimates`. -/
def specPostScaleDims (g : Mesh) : ℚ × ℚ × ℚ :=
  (round1 (sizeX (loadNormalize g)), round1 (sizeY (loadNormalize g)),
   round1 (sizeZ (loadNormalize g)))

/-! ### The preview modal's component state (PrintPreviewModal.tsx) -/

/-- The state held by `PrintPreviewModal`: `modelRotation` (the Euler
triple, counted in `Math.PI / 2` increments — the only mutations are the
three rotate buttons, each adding one quarter turn about one axis),
`estimates`, and the selected `filament` factor. -/
structure ModalState where
  modelRotation : ℤ × ℤ × ℤ
  estimates : Option PrintEstimatesRec
  filament : ℚ
deriving DecidableEq, Repr

/-- The events that mutate the modal state: the `[file, isOpen,
filament]` effect run for a (re)loaded file (PrintPreviewModal.tsx lines
49-115) and the three rotation buttons (lines 190-204). -/
inductive ModalEvent where
  | fileLoad (ext : String) (g : Option Mesh)
  | rotateX
  | rotateY
  | rotateZ
deriving DecidableEq, Repr

/-- `useState` initial values (PrintPreviewModal.tsx lines 44-47):
rotation `[0, 0, 0]`, no estimates, filament `"PLA"`. -/
def modalInit : ModalState := ⟨(0, 0, 0), none, filamentFactor "PLA"⟩

/-- One step of the modal component.  The file-load effect calls
`setEstimates` only when its attempt succeeds; the `catch` only logs, so
a failed attempt leaves the previous `estimates` record in place (stale
estimates persist across a failed load).  The effect touches no other
state — in particular it never calls `setModelRotation`.  Each rotate
button adds `Math.PI / 2` on its axis. -/
def modalStep (s : ModalState) : ModalEvent → ModalState
  | ModalEvent.fileLoad ext g =>
      ⟨s.modelRotation,
       match modalEstimates ext g s.filament with
       | some r => some r
       | none => s.estimates,
       s.filament⟩
  | ModalEvent.rotateX =>
      ⟨(s.modelRotation.1 + 1, s.modelRotation.2.1, s.modelRotation.2.2), s.estimates, s.filament⟩
  | ModalEvent.rotateY =>
      ⟨(s.modelRotation.1, s.modelRotation.2.1 + 1, s.modelRotation.2.2), s.estimates, s.filament⟩
  | ModalEvent.rotateZ =>
      ⟨(s.modelRotation.1, s.modelRotation.2.1, s.modelRotation.2.2 + 1), s.estimates, s.filament⟩

/-! ### Rotation re-bake (ModelViewer.tsx rotation effect, lines 87-106)

The rotation prop only ever holds multiples of `Math.PI / 2` (the modal's
buttons); angles are therefore modelled as integer quarter-turn counts,
for which sine and cosine are exact rationals. -/

/-- `Math.cos(k * π/2)` for an integer quarter-turn count `k`. -/
def qcos (k : ℤ) : ℚ :=
  if k % 4 = 0 then 1 else if k % 4 = 1 then 0 else if k % 4 = 2 then -1 else 0

/-- `Math.sin(k * π/2)`. -/
def qsin (k : ℤ) : ℚ :=
  if k % 4 = 0 then 0 else if k % 4 = 1 then 1 else if k % 4 = 2 then 0 else -1

/-- Rotation about the X axis by `k` quarter turns. -/
def rotX (k : ℤ) (v : Vec3) : Vec3 :=
  ⟨v.x, qcos k * v.y - qsin k * v.z, qsin k * v.y + qcos k * v.z⟩

/-- Rotation about the Y axis by `k` quarter turns. -/
def rotY (k : ℤ) (v : Vec3) : Vec3 :=
  ⟨qcos k * v.x + qsin k * v.z, v.y, -(qsin k) * v.x + qcos k * v.z⟩

/-- Rotation about the Z axis by `k` quarter turns. -/
def rotZ (k : ℤ) (v : Vec3) : Vec3 :=
  ⟨qcos k * v.x - qsin k * v.y, qsin k * v.x + qcos k * v.y, v.z⟩

/-- `tempGeometry.applyMatrix4(makeRotationFromEuler(new Euler(x, y, z)))`
with the default `XYZ` order: the matrix is `Rx · Ry · Rz`, so each
vertex becomes `Rx (Ry (Rz v))`. -/
def rotateEuler (kx ky kz : ℤ) (m : Mesh) : Mesh :=
  m.map fun v => rotX kx (rotY ky (rotZ kz v))

/-- The rotation effect (ModelViewer.tsx lines 87-106): clone the stored
geometry (`geometry.clone()` — the stored buffer is untouched), rotate
the clone, re-position it on the bed, and display the clone.  The pair is
`(stored geometry after the effect, displayed geometry)`. -/
def rotationStep (g : Mesh) (kx ky kz : ℤ) : Mesh × Mesh :=
  (g, positionOnPrintBed (rotateEuler kx ky kz g))

/-! ## Lemmas about coordinate folds -/

theorem foldl_min_map_add (t : ℚ) : ∀ (l : List ℚ) (a : ℚ),
    ((l.map fun x => x + t).foldl min (a + t)) = l.foldl min a + t := by
  intro l
  induction l with
  | nil => intro a; rfl
  | cons x l ih =>
      intro a
      simp only [List.map_cons, List.foldl_cons]
      rw [min_add_add_right]
      exact ih (min a x)

theorem foldl_max_map_add (t : ℚ) : ∀ (l : List ℚ) (a : ℚ),
    ((l.map fun x => x + t).foldl max (a + t)) = l.foldl max a + t := by
  intro l
  induction l with
  | nil => intro a; rfl
  | cons x l ih =>
      intro a
      simp only [List.map_cons, List.foldl_cons]
      rw [max_add_add_right]
      exact ih (max a x)

theorem foldl_min_map_mul (s : ℚ) (hs : 0 ≤ s) : ∀ (l : List ℚ) (a : ℚ),
    ((l.map fun x => s * x).foldl min (s * a)) = s * l.foldl min a := by
  intro l
  induction l with
  | nil => intro a; rfl
  | cons x l ih =>
      intro a
      simp only [List.map_cons, List.foldl_cons]
      rw [← mul_min_of_nonneg _ _ hs]
      exact ih (min a x)

theorem foldl_max_map_mul (s : ℚ) (hs : 0 ≤ s) : ∀ (l : List ℚ) (a : ℚ),
    ((l.map fun x => s * x).foldl max (s * a)) = s * l.foldl max a := by
  intro l
  induction l with
  | nil => intro a; rfl
  | cons x l ih =>
      intro a
      simp only [List.map_cons, List.foldl_cons]
      rw [← mul_max_of_nonneg _ _ hs]
      exact ih (max a x)

theorem foldl_min_map_neg : ∀ (l : List ℚ) (a : ℚ),
    ((l.map fun x => -x).foldl min (-a)) = -(l.foldl max a) := by
  intro l
  induction l with
  | nil => intro a; rfl
  | cons x l ih =>
      intro a
      simp only [List.map_cons, List.foldl_cons]
      rw [min_neg_neg]
      exact ih (max a x)

theorem foldl_max_map_neg : ∀ (l : List ℚ) (a : ℚ),
    ((l.map fun x => -x).foldl max (-a)) = -(l.foldl min a) := by
  intro l
  induction l with
  | nil => intro a; rfl
  | cons x l ih =>
      intro a
      simp only [List.map_cons, List.foldl_cons]
      rw [max_neg_neg]
      exact ih (min a x)

theorem foldl_min_le_foldl_max : ∀ (l : List ℚ) (a b : ℚ), a ≤ b →
    l.foldl min a ≤ l.foldl max b := by
  intro l
  induction l with
  | nil => intro a b h; exact h
  | cons x l ih =>
      intro a b h
      simp only [List.foldl_cons]
      exact ih _ _ (le_trans (min_le_left a x) (le_trans h (le_max_left b x)))

theorem listMin_map_add (t : ℚ) (l : List ℚ) (h : l ≠ []) :
    listMin (l.map fun x => x + t) = listMin l + t := by
  cases l with
  | nil => exact absurd rfl h
  | cons a l => simpa only [List.map_cons, listMin] using foldl_min_map_add t l a

theorem listMax_map_add (t : ℚ) (l : List ℚ) (h : l ≠ []) :
    listMax (l.map fun x => x + t) = listMax l + t := by
  cases l with
  | nil => exact absurd rfl h
  | cons a l => simpa only [List.map_cons, listMax] using foldl_max_map_add t l a

theorem listMin_map_mul (s : ℚ) (hs : 0 ≤ s) (l : List ℚ) (h : l ≠ []) :
    listMin (l.map fun x => s * x) = s * listMin l := by
  cases l with
  | nil => exact absurd rfl h
  | cons a l => simpa only [List.map_cons, listMin] using foldl_min_map_mul s hs l a

theorem listMax_map_mul (s : ℚ) (hs : 0 ≤ s) (l : List ℚ) (h : l ≠ []) :
    listMax (l.map fun x => s * x) = s * listMax l := by
  cases l with
  | nil => exact absurd rfl h
  | cons a l => simpa only [List.map_cons, listMax] using foldl_max_map_mul s hs l a

theorem listMin_map_neg (l : List ℚ) :
    listMin (l.map fun x => -x) = -(listMax l) := by
  cases l with
  | nil => simp [listMin, listMax]
  | cons a l => simpa only [List.map_cons, listMin, listMax] using foldl_min_map_neg l a

theorem listMax_map_neg (l : List ℚ) :
    listMax (l.map fun x => -x) = -(listMin l) := by
  cases l with
  | nil => simp [listMin, listMax]
  | cons a l => simpa only [List.map_cons, listMin, listMax] using foldl_max_map_neg l a

theorem listMin_le_listMax (l : List ℚ) (h : l ≠ []) : listMin l ≤ listMax l := by
  cases l with
  | nil => exact absurd rfl h
  | cons a l => exact foldl_min_le_foldl_max l a a le_rfl

/-! ## Lemmas about the bounding box under translation and scaling -/

theorem xsOf_translate (t : Vec3) (m : Mesh) :
    xsOf (translateMesh t m) = (xsOf m).map fun x => x + t.x := by
  simp [xsOf, translateMesh, List.map_map, Function.comp]

theorem ysOf_translate (t : Vec3) (m : Mesh) :
    ysOf (translateMesh t m) = (ysOf m).map fun x => x + t.y := by
  simp [ysOf, translateMesh, List.map_map, Function.comp]

theorem zsOf_translate (t : Vec3) (m : Mesh) :
    zsOf (translateMesh t m) = (zsOf m).map fun x => x + t.z := by
  simp [zsOf, translateMesh, List.map_map, Function.comp]

theorem xsOf_scale (s : ℚ) (m : Mesh) :
    xsOf (scaleMesh s m) = (xsOf m).map fun x => s * x := by
  simp [xsOf, scaleMesh, List.map_map, Function.comp]

theorem ysOf_scale (s : ℚ) (m : Mesh) :
    ysOf (scaleMesh s m) = (ysOf m).map fun x => s * x := by
  simp [ysOf, scaleMesh, List.map_map, Function.comp]

theorem zsOf_scale (s : ℚ) (m : Mesh) :
    zsOf (scaleMesh s m) = (zsOf m).map fun x => s * x := by
  simp [zsOf, scaleMesh, List.map_map, Function.comp]

theorem xsOf_ne_nil (m : Mesh) (h : m ≠ []) : xsOf m ≠ [] := by
  simpa [xsOf, List.map_eq_nil_iff] using h

theorem ysOf_ne_nil (m : Mesh) (h : m ≠ []) : ysOf m ≠ [] := by
  simpa [ysOf, List.map_eq_nil_iff] using h

theorem zsOf_ne_nil (m : Mesh) (h : m ≠ []) : zsOf m ≠ [] := by
  simpa [zsOf, List.map_eq_nil_iff] using h

theorem translateMesh_ne_nil (t : Vec3) (m : Mesh) (h : m ≠ []) :
    translateMesh t m ≠ [] := by
  simpa [translateMesh, List.map_eq_nil_iff] using h

theorem scaleMesh_ne_nil (s : ℚ) (m : Mesh) (h : m ≠ []) :
    scaleMesh s m ≠ [] := by
  simpa [scaleMesh, List.map_eq_nil_iff] using h

theorem bbMinX_translate (t : Vec3) (m : Mesh) (h : m ≠ []) :
    bbMinX (translateMesh t m) = bbMinX m + t.x := by
  rw [bbMinX, xsOf_translate, listMin_map_add _ _ (xsOf_ne_nil m h)]; rfl

theorem bbMaxX_translate (t : Vec3) (m : Mesh) (h : m ≠ []) :
    bbMaxX (translateMesh t m) = bbMaxX m + t.x := by
  rw [bbMaxX, xsOf_translate, listMax_map_add _ _ (xsOf_ne_nil m h)]; rfl

theorem bbMinY_translate (t : Vec3) (m : Mesh) (h : m ≠ []) :
    bbMinY (translateMesh t m) = bbMinY m + t.y := by
  rw [bbMinY, ysOf_translate, listMin_map_add _ _ (ysOf_ne_nil m h)]; rfl

theorem bbMaxY_translate (t : Vec3) (m : Mesh) (h : m ≠ []) :
    bbMaxY (translateMesh t m) = bbMaxY m + t.y := by
  rw [bbMaxY, ysOf_translate, listMax_map_add _ _ (ysOf_ne_nil m h)]; rfl

theorem bbMinZ_translate (t : Vec3) (m : Mesh) (h : m ≠ []) :
    bbMinZ (translateMesh t m) = bbMinZ m + t.z := by
  rw [bbMinZ, zsOf_translate, listMin_map_add _ _ (zsOf_ne_nil m h)]; rfl

theorem bbMaxZ_translate (t : Vec3) (m : Mesh) (h : m ≠ []) :
    bbMaxZ (translateMesh t m) = bbMaxZ m + t.z := by
  rw [bbMaxZ, zsOf_translate, listMax_map_add _ _ (zsOf_ne_nil m h)]; rfl

theorem bbMinX_scale (s : ℚ) (hs : 0 ≤ s) (m : Mesh) (h : m ≠ []) :
    bbMinX (scaleMesh s m) = s * bbMinX m := by
  rw [bbMinX, xsOf_scale, listMin_map_mul _ hs _ (xsOf_ne_nil m h)]; rfl

theorem bbMaxX_scale (s : ℚ) (hs : 0 ≤ s) (m : Mesh) (h : m ≠ []) :
    bbMaxX (scaleMesh s m) = s * bbMaxX m := by
  rw [bbMaxX, xsOf_scale, listMax_map_mul _ hs _ (xsOf_ne_nil m h)]; rfl

theorem bbMinY_scale (s : ℚ) (hs : 0 ≤ s) (m : Mesh) (h : m ≠ []) :
    bbMinY (scaleMesh s m) = s * bbMinY m := by
  rw [bbMinY, ysOf_scale, listMin_map_mul _ hs _ (ysOf_ne_nil m h)]; rfl

theorem bbMaxY_scale (s : ℚ) (hs : 0 ≤ s) (m : Mesh) (h : m ≠ []) :
    bbMaxY (scaleMesh s m) = s * bbMaxY m := by
  rw [bbMaxY, ysOf_scale, listMax_map_mul _ hs _ (ysOf_ne_nil m h)]; rfl

theorem bbMinZ_scale (s : ℚ) (hs : 0 ≤ s) (m : Mesh) (h : m ≠ []) :
    bbMinZ (scaleMesh s m) = s * bbMinZ m := by
  rw [bbMinZ, zsOf_scale, listMin_map_mul _ hs _ (zsOf_ne_nil m h)]; rfl

theorem bbMaxZ_scale (s : ℚ) (hs : 0 ≤ s) (m : Mesh) (h : m ≠ []) :
    bbMaxZ (scaleMesh s m) = s * bbMaxZ m := by
  rw [bbMaxZ, zsOf_scale, listMax_map_mul _ hs _ (zsOf_ne_nil m h)]; rfl

theorem sizeX_translate (t : Vec3) (m : Mesh) (h : m ≠ []) :
    sizeX (translateMesh t m) = sizeX m := by
  rw [sizeX, sizeX, bbMinX_translate t m h, bbMaxX_translate t m h]; ring

theorem sizeY_translate (t : Vec3) (m : Mesh) (h : m ≠ []) :
    sizeY (translateMesh t m) = sizeY m := by
  rw [sizeY, sizeY, bbMinY_translate t m h, bbMaxY_translate t m h]; ring

theorem sizeZ_translate (t : Vec3) (m : Mesh) (h : m ≠ []) :
    sizeZ (translateMesh t m) = sizeZ m := by
  rw [sizeZ, sizeZ, bbMinZ_translate t m h, bbMaxZ_translate t m h]; ring

theorem sizeX_scale (s : ℚ) (hs : 0 ≤ s) (m : Mesh) (h : m ≠ []) :
    sizeX (scaleMesh s m) = s * sizeX m := by
  rw [sizeX, sizeX, bbMinX_scale s hs m h, bbMaxX_scale s hs m h]; ring

theorem sizeY_scale (s : ℚ) (hs : 0 ≤ s) (m : Mesh) (h : m ≠ []) :
    sizeY (scaleMesh s m) = s * sizeY m := by
  rw [sizeY, sizeY, bbMinY_scale s hs m h, bbMaxY_scale s hs m h]; ring

theorem sizeZ_scale (s : ℚ) (hs : 0 ≤ s) (m : Mesh) (h : m ≠ []) :
    sizeZ (scaleMesh s m) = s * sizeZ m := by
  rw [sizeZ, sizeZ, bbMinZ_scale s hs m h, bbMaxZ_scale s hs m h]; ring

theorem sizeX_nonneg (m : Mesh) (h : m ≠ []) : 0 ≤ sizeX m :=
  sub_nonneg.mpr (listMin_le_listMax _ (xsOf_ne_nil m h))

theorem sizeY_nonneg (m : Mesh) (h : m ≠ []) : 0 ≤ sizeY m :=
  sub_nonneg.mpr (listMin_le_listMax _ (ysOf_ne_nil m h))

theorem sizeZ_nonneg (m : Mesh) (h : m ≠ []) : 0 ≤ sizeZ m :=
  sub_nonneg.mpr (listMin_le_listMax _ (zsOf_ne_nil m h))

theorem maxDimension_nonneg (m : Mesh) (h : m ≠ []) : 0 ≤ maxDimension m :=
  le_trans (sizeX_nonneg m h) (le_trans (le_max_left _ _) (le_max_left _ _))

theorem maxDimension_translate (t : Vec3) (m : Mesh) (h : m ≠ []) :
    maxDimension (translateMesh t m) = maxDimension m := by
  rw [maxDimension, maxDimension, sizeX_translate t m h, sizeY_translate t m h,
    sizeZ_translate t m h]

theorem maxDimension_scale (s : ℚ) (hs : 0 ≤ s) (m : Mesh) (h : m ≠ []) :
    maxDimension (scaleMesh s m) = s * maxDimension m := by
  rw [maxDimension, maxDimension, sizeX_scale s hs m h, sizeY_scale s hs m h,
    sizeZ_scale s hs m h, ← mul_max_of_nonneg _ _ hs, ← mul_max_of_nonneg _ _ hs]

/-! ## Lemmas about `positionOnPrintBed` and `bedScale` -/

theorem bbMinY_position (m : Mesh) (h : m ≠ []) :
    bbMinY (positionOnPrintBed m) = 0 := by
  rw [positionOnPrintBed, bbMinY_translate _ m h]
  exact add_neg_cancel _

theorem midX_position (m : Mesh) (h : m ≠ []) :
    (bbMinX (positionOnPrintBed m) + bbMaxX (positionOnPrintBed m)) / 2 = 0 := by
  rw [positionOnPrintBed, bbMinX_translate _ m h, bbMaxX_translate _ m h]
  show (bbMinX m + -(centerX m) + (bbMaxX m + -(centerX m))) / 2 = 0
  rw [centerX]; ring

theorem midZ_position (m : Mesh) (h : m ≠ []) :
    (bbMinZ (positionOnPrintBed m) + bbMaxZ (positionOnPrintBed m)) / 2 = 0 := by
  rw [positionOnPrintBed, bbMinZ_translate _ m h, bbMaxZ_translate _ m h]
  show (bbMinZ m + -(centerZ m) + (bbMaxZ m + -(centerZ m))) / 2 = 0
  rw [centerZ]; ring

theorem maxDimension_position (m : Mesh) (h : m ≠ []) :
    maxDimension (positionOnPrintBed m) = maxDimension m :=
  maxDimension_translate _ m h

theorem positionOnPrintBed_ne_nil (m : Mesh) (h : m ≠ []) :
    positionOnPrintBed m ≠ [] :=
  translateMesh_ne_nil _ m h

theorem bedScale_le_one (m : Mesh) : bedScale m ≤ 1 := by
  rw [bedScale]
  split
  · exact le_rfl
  · exact min_le_right _ _

theorem bedScale_nonneg (m : Mesh) (h : m ≠ []) : 0 ≤ bedScale m := by
  rw [bedScale]
  split
  · exact zero_le_one
  · exact le_min (div_nonneg (by norm_num) (maxDimension_nonneg m h)) zero_le_one

theorem bedScale_eq_one (m : Mesh) (h : m ≠ []) (hle : maxDimension m ≤ 40) :
    bedScale m = 1 := by
  rw [bedScale]
  split
  · rfl
  · rename_i hne
    have hd : 0 < maxDimension m := lt_of_le_of_ne (maxDimension_nonneg m h) (Ne.symm hne)
    exact min_eq_right ((one_le_div hd).mpr hle)

theorem maxDimension_loadNormalize (m : Mesh) (h : m ≠ []) :
    maxDimension (loadNormalize m) ≤ 40 := by
  have hs0 := bedScale_nonneg m h
  have hsne := scaleMesh_ne_nil (bedScale m) m h
  rw [loadNormalize, maxDimension_position _ hsne, maxDimension_scale _ hs0 m h]
  by_cases h40 : maxDimension m ≤ 40
  · rw [bedScale_eq_one m h h40, one_mul]; exact h40
  · push_neg at h40
    have hd : (0 : ℚ) < maxDimension m := lt_trans (by norm_num) h40
    have hmin : bedScale m = 40 / maxDimension m := by
      rw [bedScale, if_neg (ne_of_gt hd)]
      exact min_eq_left (le_of_lt ((div_lt_one hd).mpr h40))
    rw [hmin, div_mul_cancel₀ _ (ne_of_gt hd)]

/-- Claim C1: for every geometry successfully loaded through the
model-loading pipeline, the applied scale factor equals
`min(1, 40 / maxDimension)` and never exceeds `1`, and after scaling and
translation the maximum bounding-box dimension is at most `40`, the
minimum y-coordinate is `0`, and the midpoints of the X and Z extents
are `0` (all exact in the rational model, hence within any `ε`). -/
theorem claim_C1 (m : Mesh) (h : m ≠ []) :
    bedScale m ≤ 1 ∧
    (0 < maxDimension m → bedScale m = min 1 (40 / maxDimension m)) ∧
    maxDimension (loadNormalize m) ≤ 40 ∧
    bbMinY (loadNormalize m) = 0 ∧
    (bbMinX (loadNormalize m) + bbMaxX (loadNormalize m)) / 2 = 0 ∧
    (bbMinZ (loadNormalize m) + bbMaxZ (loadNormalize m)) / 2 = 0 := by
  have hsne := scaleMesh_ne_nil (bedScale m) m h
  refine ⟨bedScale_le_one m, fun hd => ?_, maxDimension_loadNormalize m h,
    bbMinY_position _ hsne, midX_position _ hsne, midZ_position _ hsne⟩
  rw [bedScale, if_neg (ne_of_gt hd), min_comm]

/-- Witness for claim C1 at a concrete two-vertex mesh. -/
theorem claim_C1_witness :
    bbMinY (loadNormalize [⟨0, 0, 0⟩, ⟨1, 2, 3⟩]) = 0 :=
  (claim_C1 [⟨0, 0, 0⟩, ⟨1, 2, 3⟩] (by decide)).2.2.2.1

/-! ## Degenerate geometry (claim C10) -/

theorem foldl_min_replicate (a : ℚ) : ∀ n : ℕ, (List.replicate n a).foldl min a = a := by
  intro n
  induction n with
  | zero => rfl
  | succ n ih => simpa only [List.replicate_succ, List.foldl_cons, min_self] using ih

theorem foldl_max_replicate (a : ℚ) : ∀ n : ℕ, (List.replicate n a).foldl max a = a := by
  intro n
  induction n with
  | zero => rfl
  | succ n ih => simpa only [List.replicate_succ, List.foldl_cons, max_self] using ih

theorem listMin_replicate (n : ℕ) (a : ℚ) : listMin (List.replicate (n + 1) a) = a := by
  simpa only [List.replicate_succ, listMin] using foldl_min_replicate a n

theorem listMax_replicate (n : ℕ) (a : ℚ) : listMax (List.replicate (n + 1) a) = a := by
  simpa only [List.replicate_succ, listMax] using foldl_max_replicate a n

theorem scaleMesh_one (m : Mesh) : scaleMesh 1 m = m := by
  simp only [scaleMesh, one_mul]
  exact List.map_id m

/-- Claim C10: for a loaded geometry with all vertices coincident
(`maxDimension = 0`), the scale factor evaluates to `1` (mirroring
`Math.min(40 / 0, 1) = Math.min(Infinity, 1) = 1` in JavaScript), no
non-finite value enters the vertex data, and the load completes with the
mesh positioned at the bed origin. -/
theorem claim_C10 (v : Vec3) (n : ℕ) :
    maxDimension (List.replicate (n + 1) v) = 0 ∧
    bedScale (List.replicate (n + 1) v) = 1 ∧
    loadNormalize (List.replicate (n + 1) v) = List.replicate (n + 1) ⟨0, 0, 0⟩ := by
  have hxs : xsOf (List.replicate (n + 1) v) = List.replicate (n + 1) v.x := by
    simp [xsOf, List.map_replicate]
  have hys : ysOf (List.replicate (n + 1) v) = List.replicate (n + 1) v.y := by
    simp [ysOf, List.map_replicate]
  have hzs : zsOf (List.replicate (n + 1) v) = List.replicate (n + 1) v.z := by
    simp [zsOf, List.map_replicate]
  have hminx : bbMinX (List.replicate (n + 1) v) = v.x := by
    rw [bbMinX, hxs]; exact listMin_replicate n v.x
  have hmaxx : bbMaxX (List.replicate (n + 1) v) = v.x := by
    rw [bbMaxX, hxs]; exact listMax_replicate n v.x
  have hminy : bbMinY (List.replicate (n + 1) v) = v.y := by
    rw [bbMinY, hys]; exact listMin_replicate n v.y
  have hmaxy : bbMaxY (List.replicate (n + 1) v) = v.y := by
    rw [bbMaxY, hys]; exact listMax_replicate n v.y
  have hminz : bbMinZ (List.replicate (n + 1) v) = v.z := by
    rw [bbMinZ, hzs]; exact listMin_replicate n v.z
  have hmaxz : bbMaxZ (List.replicate (n + 1) v) = v.z := by
    rw [bbMaxZ, hzs]; exact listMax_replicate n v.z
  have hmd : maxDimension (List.replicate (n + 1) v) = 0 := by
    rw [maxDimension, sizeX, sizeY, sizeZ, hminx, hmaxx, hminy, hmaxy, hminz, hmaxz]
    simp
  have hbs : bedScale (List.replicate (n + 1) v) = 1 := by
    simp only [bedScale, hmd]
    rfl
  refine ⟨hmd, hbs, ?_⟩
  rw [loadNormalize, hbs, scaleMesh_one, positionOnPrintBed, centerX, centerZ,
    hminx, hmaxx, hminy, hminz, hmaxz]
  simp only [translateMesh, List.map_replicate]
  have hv : (⟨v.x + -((v.x + v.x) / 2), v.y + -v.y, v.z + -((v.z + v.z) / 2)⟩ : Vec3) =
      ⟨0, 0, 0⟩ := by
    congr 1 <;> ring
  rw [hv]

/-- Witness for claim C10 at a concrete coincident mesh. -/
theorem claim_C10_witness :
    loadNormalize (List.replicate 3 ⟨5, 7, 9⟩) = List.replicate 3 ⟨0, 0, 0⟩ :=
  (claim_C10 ⟨5, 7, 9⟩ 2).2.2

/-! ## Reported print dimensions (claim C2) -/

theorem round1_of_tenths (k : ℤ) : round1 ((k : ℚ) / 10) = (k : ℚ) / 10 := by
  rw [round1, jsRound, div_mul_cancel₀ (k : ℚ) (by norm_num : (10 : ℚ) ≠ 0)]
  have hk : ⌊(k : ℚ) + 1 / 2⌋ = k := by
    rw [Int.floor_eq_iff]
    constructor
    · norm_num
    · norm_num
  rw [hk]

/-- Claim C2 counterexample: for the decoded triangle with vertices
`(0,0,0)`, `(100,0,0)`, `(0,1,1)` the metrics record reports dimensions
`100 × 1 × 1` (the raw, pre-scale bounding box), while the post-scale
(bed-normalized) bounding box rounded to one decimal is
`40 × 0.4 × 0.4`. -/
theorem claim_C2_counterexample :
    ((printEstimates 1.2 [⟨0, 0, 0⟩, ⟨100, 0, 0⟩, ⟨0, 1, 1⟩]).width,
     (printEstimates 1.2 [⟨0, 0, 0⟩, ⟨100, 0, 0⟩, ⟨0, 1, 1⟩]).height,
     (printEstimates 1.2 [⟨0, 0, 0⟩, ⟨100, 0, 0⟩, ⟨0, 1, 1⟩]).depth) = (100, 1, 1) ∧
    specPostScaleDims [⟨0, 0, 0⟩, ⟨100, 0, 0⟩, ⟨0, 1, 1⟩] = (40, 2 / 5, 2 / 5) ∧
    ((100 : ℚ), (1 : ℚ), (1 : ℚ)) ≠ ((40 : ℚ), (2 / 5 : ℚ), (2 / 5 : ℚ)) := by
  have h100 : round1 (100 : ℚ) = 100 := by
    have h := round1_of_tenths 1000
    norm_num at h
    simpa using h
  have h1 : round1 (1 : ℚ) = 1 := by
    have h := round1_of_tenths 10
    norm_num at h
    simpa using h
  have h40 : round1 (40 : ℚ) = 40 := by
    have h := round1_of_tenths 400
    norm_num at h
    simpa using h
  have h25 : round1 (2 / 5 : ℚ) = 2 / 5 := by
    have h := round1_of_tenths 4
    norm_num at h
    simpa using h
  have hnorm : loadNormalize [⟨0, 0, 0⟩, ⟨100, 0, 0⟩, ⟨0, 1, 1⟩] =
      [⟨-20, 0, -(1 / 5)⟩, ⟨20, 0, -(1 / 5)⟩, ⟨-20, 2 / 5, 1 / 5⟩] := by
    norm_num [loadNormalize, bedScale, maxDimension, sizeX, sizeY, sizeZ, bbMaxX,
      bbMinX, bbMaxY, bbMinY, bbMaxZ, bbMinZ, xsOf, ysOf, zsOf, listMin, listMax,
      scaleMesh, positionOnPrintBed, translateMesh, centerX, centerZ, max_def, min_def]
  refine ⟨?_, ?_, by norm_num⟩
  · simp only [printEstimates]
    norm_num [bbMaxX, bbMinX, bbMaxY, bbMinY, bbMaxZ, bbMinZ, xsOf, ysOf, zsOf,
      listMin, listMax, max_def, min_def, h100, h1]
  · rw [specPostScaleDims, hnorm]
    norm_num [sizeX, sizeY, sizeZ, bbMaxX, bbMinX, bbMaxY, bbMinY, bbMaxZ, bbMinZ,
      xsOf, ysOf, zsOf, listMin, listMax, max_def, min_def, h40, h25]

/-- Claim C2 (amended): the dimensions reported in the print-metrics
record are the bounding-box sizes of the geometry exactly as decoded —
pre-scale, not bed-normalized — each rounded to one decimal place. -/
theorem claim_C2 (factor : ℚ) (g : Mesh) :
    (printEstimates factor g).width = round1 (bbMaxX g - bbMinX g) ∧
    (printEstimates factor g).height = round1 (bbMaxY g - bbMinY g) ∧
    (printEstimates factor g).depth = round1 (bbMaxZ g - bbMinZ g) :=
  ⟨rfl, rfl, rfl⟩

/-- Witness for claim C2 at a concrete mesh. -/
theorem claim_C2_witness :
    (printEstimates 1 [⟨0, 0, 0⟩]).width = round1 (bbMaxX [⟨0, 0, 0⟩] - bbMinX [⟨0, 0, 0⟩]) :=
  (claim_C2 1 [⟨0, 0, 0⟩]).1

/-! ## Estimates on decode failure (claim C4) -/

theorem boxGeometry_ne_nil (s : ℚ) : boxGeometry s ≠ [] := by
  simp [boxGeometry, quadFace]

/-- Claim C4 counterexample: a `.3mf` upload (a supported viewer format)
reaches the estimates pipeline, which throws `"Unsupported file type."`
and computes no estimates record; loaded from the fresh modal state it
leaves `estimates` at `none` — the panel presents nothing, contradicting
"estimate figures are computed against the placeholder geometry rather
than producing no estimates". -/
theorem claim_C4_counterexample :
    (modalStep modalInit (ModalEvent.fileLoad "3mf" (some (boxGeometry 20)))).estimates =
      none ∧
    modalEstimates "3mf" (some (boxGeometry 20)) 1.2 = none :=
  ⟨rfl, rfl⟩

/-- Claim C4 (amended): on a decode failure the viewer substitutes the
bed-positioned 20-unit placeholder cube, so the preview is never empty;
but the estimates pipeline never computes figures against the
placeholder — a failed attempt (any extension other than `stl`/`obj`,
or a failed parse) computes no record, and the `catch` leaves the
`estimates` state exactly as it was: absent (nothing presented) when no
earlier load had succeeded, or the stale record of the previous
successful load otherwise. -/
theorem claim_C4 :
    (∀ (ext : String) (g : Option Mesh) (factor : ℚ),
        ext ≠ "stl" → ext ≠ "obj" → modalEstimates ext g factor = none) ∧
    (∀ (ext : String) (factor : ℚ), modalEstimates ext none factor = none) ∧
    (∀ (s : ModalState) (ext : String) (g : Option Mesh),
        modalEstimates ext g s.filament = none →
        (modalStep s (ModalEvent.fileLoad ext g)).estimates = s.estimates) ∧
    (∀ buf : List ℕ, parseSTL buf = Except.error () →
        loadSTL buf = positionOnPrintBed (boxGeometry 20) ∧ loadSTL buf ≠ []) := by
  refine ⟨fun ext g factor h1 h2 => ?_, fun ext factor => ?_,
    fun s ext g h => ?_, fun buf h => ?_⟩
  · rw [modalEstimates, if_neg]
    rintro (h | h)
    · exact h1 h
    · exact h2 h
  · rw [modalEstimates]
    split
    · rfl
    · rfl
  · show (match modalEstimates ext g s.filament with
          | some r => some r
          | none => s.estimates) = s.estimates
    rw [h]
  · have hload : loadSTL buf = positionOnPrintBed (boxGeometry 20) := by
      rw [loadSTL, h]
    exact ⟨hload, by
      rw [hload]
      exact positionOnPrintBed_ne_nil _ (boxGeometry_ne_nil 20)⟩

/-- Witness for claim C4: a state holding the estimates of an earlier
successful load keeps that stale record when a `.3mf` load fails. -/
theorem claim_C4_witness :
    (modalStep ⟨(0, 0, 0), some (printEstimates 1.2 [⟨0, 0, 0⟩]), 1.2⟩
        (ModalEvent.fileLoad "3mf" none)).estimates =
      some (printEstimates 1.2 [⟨0, 0, 0⟩]) :=
  claim_C4.2.2.1 ⟨(0, 0, 0), some (printEstimates 1.2 [⟨0, 0, 0⟩]), 1.2⟩ "3mf" none rfl

/-! ## Rotation state lifecycle (claim C8) -/

/-- Claim C8 counterexample: rotate once, then load a new file — the
rotation state is still one quarter turn about X, not zero; the file-load
effect never resets `modelRotation`. -/
theorem claim_C8_counterexample :
    (modalStep (modalStep modalInit ModalEvent.rotateX)
        (ModalEvent.fileLoad "stl" (some [⟨0, 0, 0⟩]))).modelRotation ≠ (0, 0, 0) := by
  decide

/-- Claim C8 (amended): the rotation state starts at zero when the modal
component is created, and loading a file (first or subsequent) leaves it
unchanged — it persists across file loads and is never reset by a load. -/
theorem claim_C8 :
    modalInit.modelRotation = (0, 0, 0) ∧
    (∀ (s : ModalState) (ext : String) (g : Option Mesh),
        (modalStep s (ModalEvent.fileLoad ext g)).modelRotation = s.modelRotation) :=
  ⟨rfl, fun _ _ _ => rfl⟩

/-- Witness for claim C8 at a concrete state and load event. -/
theorem claim_C8_witness :
    (modalStep modalInit (ModalEvent.fileLoad "obj" none)).modelRotation =
      modalInit.modelRotation :=
  claim_C8.2 modalInit "obj" none

/-! ## Rotation re-bake (claim C3) -/

theorem emod4_cases (k : ℤ) : k % 4 = 0 ∨ k % 4 = 1 ∨ k % 4 = 2 ∨ k % 4 = 3 := by
  omega

theorem sizes_to_lists (m : Mesh) :
    maxDimension m =
      max (max (listMax (xsOf m) - listMin (xsOf m)) (listMax (ysOf m) - listMin (ysOf m)))
        (listMax (zsOf m) - listMin (zsOf m)) := rfl

theorem neg_span (l : List ℚ) :
    listMax (l.map fun x => -x) - listMin (l.map fun x => -x) = listMax l - listMin l := by
  rw [listMax_map_neg, listMin_map_neg]; ring

theorem max3_swap_yz (a b c : ℚ) : max (max a c) b = max (max a b) c :=
  (sup_right_comm a b c).symm

theorem max3_swap_xz (a b c : ℚ) : max (max c b) a = max (max a b) c := by
  rw [max_comm c b, sup_right_comm, max_comm b a]

theorem max3_swap_xy (a b c : ℚ) : max (max b a) c = max (max a b) c := by
  rw [max_comm b a]

theorem maxDimension_map_rotX (k : ℤ) (m : Mesh) :
    maxDimension (m.map (rotX k)) = maxDimension m := by
  have hx : xsOf (m.map (rotX k)) = xsOf m := by
    simp [xsOf, rotX, List.map_map, Function.comp]
  rcases emod4_cases k with h | h | h | h
  · have hc : qcos k = 1 := by simp [qcos, h]
    have hs : qsin k = 0 := by simp [qsin, h]
    have hid : m.map (rotX k) = m := by
      have : rotX k = fun v => v := by
        funext v
        simp [rotX, hc, hs]
      rw [this]
      exact List.map_id m
    rw [hid]
  · have hc : qcos k = 0 := by simp [qcos, h]
    have hs : qsin k = 1 := by simp [qsin, h]
    have hy : ysOf (m.map (rotX k)) = (zsOf m).map fun x => -x := by
      simp [ysOf, zsOf, rotX, hc, hs, List.map_map, Function.comp]
    have hz : zsOf (m.map (rotX k)) = ysOf m := by
      simp [zsOf, ysOf, rotX, hc, hs, List.map_map, Function.comp]
    rw [sizes_to_lists, sizes_to_lists m, hx, hy, hz, neg_span]
    exact max3_swap_yz _ _ _
  · have hc : qcos k = -1 := by simp [qcos, h]
    have hs : qsin k = 0 := by simp [qsin, h]
    have hy : ysOf (m.map (rotX k)) = (ysOf m).map fun x => -x := by
      simp [ysOf, rotX, hc, hs, List.map_map, Function.comp]
    have hz : zsOf (m.map (rotX k)) = (zsOf m).map fun x => -x := by
      simp [zsOf, rotX, hc, hs, List.map_map, Function.comp]
    rw [sizes_to_lists, sizes_to_lists m, hx, hy, hz, neg_span, neg_span]
  · have hc : qcos k = 0 := by simp [qcos, h]
    have hs : qsin k = -1 := by simp [qsin, h]
    have hy : ysOf (m.map (rotX k)) = zsOf m := by
      simp [ysOf, zsOf, rotX, hc, hs, List.map_map, Function.comp]
    have hz : zsOf (m.map (rotX k)) = (ysOf m).map fun x => -x := by
      simp [zsOf, ysOf, rotX, hc, hs, List.map_map, Function.comp]
    rw [sizes_to_lists, sizes_to_lists m, hx, hy, hz, neg_span]
    exact max3_swap_yz _ _ _

theorem maxDimension_map_rotY (k : ℤ) (m : Mesh) :
    maxDimension (m.map (rotY k)) = maxDimension m := by
  have hyy : ysOf (m.map (rotY k)) = ysOf m := by
    simp [ysOf, rotY, List.map_map, Function.comp]
  rcases emod4_cases k with h | h | h | h
  · have hc : qcos k = 1 := by simp [qcos, h]
    have hs : qsin k = 0 := by simp [qsin, h]
    have hid : m.map (rotY k) = m := by
      have : rotY k = fun v => v := by
        funext v
        simp [rotY, hc, hs]
      rw [this]
      exact List.map_id m
    rw [hid]
  · have hc : qcos k = 0 := by simp [qcos, h]
    have hs : qsin k = 1 := by simp [qsin, h]
    have hxx : xsOf (m.map (rotY k)) = zsOf m := by
      simp [xsOf, zsOf, rotY, hc, hs, List.map_map, Function.comp]
    have hzz : zsOf (m.map (rotY k)) = (xsOf m).map fun x => -x := by
      simp [zsOf, xsOf, rotY, hc, hs, List.map_map, Function.comp]
    rw [sizes_to_lists, sizes_to_lists m, hyy, hxx, hzz, neg_span]
    exact max3_swap_xz _ _ _
  · have hc : qcos k = -1 := by simp [qcos, h]
    have hs : qsin k = 0 := by simp [qsin, h]
    have hxx : xsOf (m.map (rotY k)) = (xsOf m).map fun x => -x := by
      simp [xsOf, rotY, hc, hs, List.map_map, Function.comp]
    have hzz : zsOf (m.map (rotY k)) = (zsOf m).map fun x => -x := by
      simp [zsOf, rotY, hc, hs, List.map_map, Function.comp]
    rw [sizes_to_lists, sizes_to_lists m, hyy, hxx, hzz, neg_span, neg_span]
  · have hc : qcos k = 0 := by simp [qcos, h]
    have hs : qsin k = -1 := by simp [qsin, h]
    have hxx : xsOf (m.map (rotY k)) = (zsOf m).map fun x => -x := by
      simp [xsOf, zsOf, rotY, hc, hs, List.map_map, Function.comp]
    have hzz : zsOf (m.map (rotY k)) = xsOf m := by
      simp [zsOf, xsOf, rotY, hc, hs, List.map_map, Function.comp]
    rw [sizes_to_lists, sizes_to_lists m, hyy, hxx, hzz, neg_span]
    exact max3_swap_xz _ _ _

theorem maxDimension_map_rotZ (k : ℤ) (m : Mesh) :
    maxDimension (m.map (rotZ k)) = maxDimension m := by
  have hzz : zsOf (m.map (rotZ k)) = zsOf m := by
    simp [zsOf, rotZ, List.map_map, Function.comp]
  rcases emod4_cases k with h | h | h | h
  · have hc : qcos k = 1 := by simp [qcos, h]
    have hs : qsin k = 0 := by simp [qsin, h]
    have hid : m.map (rotZ k) = m := by
      have : rotZ k = fun v => v := by
        funext v
        simp [rotZ, hc, hs]
      rw [this]
      exact List.map_id m
    rw [hid]
  · have hc : qcos k = 0 := by simp [qcos, h]
    have hs : qsin k = 1 := by simp [qsin, h]
    have hxx : xsOf (m.map (rotZ k)) = (ysOf m).map fun x => -x := by
      simp [xsOf, ysOf, rotZ, hc, hs, List.map_map, Function.comp]
    have hyy : ysOf (m.map (rotZ k)) = xsOf m := by
      simp [ysOf, xsOf, rotZ, hc, hs, List.map_map, Function.comp]
    rw [sizes_to_lists, sizes_to_lists m, hzz, hxx, hyy, neg_span]
    exact max3_swap_xy _ _ _
  · have hc : qcos k = -1 := by simp [qcos, h]
    have hs : qsin k = 0 := by simp [qsin, h]
    have hxx : xsOf (m.map (rotZ k)) = (xsOf m).map fun x => -x := by
      simp [xsOf, rotZ, hc, hs, List.map_map, Function.comp]
    have hyy : ysOf (m.map (rotZ k)) = (ysOf m).map fun x => -x := by
      simp [ysOf, rotZ, hc, hs, List.map_map, Function.comp]
    rw [sizes_to_lists, sizes_to_lists m, hzz, hxx, hyy, neg_span, neg_span]
  · have hc : qcos k = 0 := by simp [qcos, h]
    have hs : qsin k = -1 := by simp [qsin, h]
    have hxx : xsOf (m.map (rotZ k)) = ysOf m := by
      simp [xsOf, ysOf, rotZ, hc, hs, List.map_map, Function.comp]
    have hyy : ysOf (m.map (rotZ k)) = (xsOf m).map fun x => -x := by
      simp [ysOf, xsOf, rotZ, hc, hs, List.map_map, Function.comp]
    rw [sizes_to_lists, sizes_to_lists m, hzz, hxx, hyy, neg_span]
    exact max3_swap_xy _ _ _

theorem maxDimension_rotateEuler (kx ky kz : ℤ) (m : Mesh) :
    maxDimension (rotateEuler kx ky kz m) = maxDimension m := by
  have h : rotateEuler kx ky kz m = ((m.map (rotZ kz)).map (rotY ky)).map (rotX kx) := by
    simp [rotateEuler, List.map_map, Function.comp]
  rw [h, maxDimension_map_rotX, maxDimension_map_rotY, maxDimension_map_rotZ]

/-- Claim C3: a rotation-increment request (quarter-turn Euler counts)
rotates a fresh copy of the stored geometry — the stored buffer is
returned unchanged — and the displayed result equals re-running the full
normalizer (scale-to-fit and bed positioning) on the rotated copy: for
any stored geometry that is already bed-fitted (`maxDimension ≤ 40`, as
`loadModel` guarantees), the scale-to-fit step computes scale `1`, so the
code's rotate-then-`positionOnPrintBed` is exactly the full Normalizer
re-run. -/
theorem claim_C3 (g : Mesh) (kx ky kz : ℤ) (hne : g ≠ [])
    (hdim : maxDimension g ≤ 40) :
    (rotationStep g kx ky kz).1 = g ∧
    (rotationStep g kx ky kz).2 = loadNormalize (rotateEuler kx ky kz g) := by
  refine ⟨rfl, ?_⟩
  have hrne : rotateEuler kx ky kz g ≠ [] := by
    simpa [rotateEuler, List.map_eq_nil_iff] using hne
  have hrdim : maxDimension (rotateEuler kx ky kz g) ≤ 40 := by
    rw [maxDimension_rotateEuler]; exact hdim
  show positionOnPrintBed (rotateEuler kx ky kz g) = loadNormalize (rotateEuler kx ky kz g)
  rw [loadNormalize, bedScale_eq_one _ hrne hrdim, scaleMesh_one]

/-- Witness for claim C3 at a concrete stored mesh and rotation. -/
theorem claim_C3_witness :
    (rotationStep [⟨0, 0, 0⟩, ⟨1, 2, 3⟩] 1 2 3).1 = [⟨0, 0, 0⟩, ⟨1, 2, 3⟩] ∧
    (rotationStep [⟨0, 0, 0⟩, ⟨1, 2, 3⟩] 1 2 3).2 =
      loadNormalize (rotateEuler 1 2 3 [⟨0, 0, 0⟩, ⟨1, 2, 3⟩]) :=
  claim_C3 [⟨0, 0, 0⟩, ⟨1, 2, 3⟩] 1 2 3 (by decide)
    (by norm_num [maxDimension, sizeX, sizeY, sizeZ, bbMaxX, bbMinX, bbMaxY, bbMinY,
      bbMaxZ, bbMinZ, xsOf, ysOf, zsOf, listMin, listMax, max_def, min_def])

/-! ## STL truncation handling (claim C5) -/

set_option maxRecDepth 40000 in
/-- Claim C5 counterexample: a buffer of `132` bytes declaring one
triangle is shorter than `84 + 1 * 50 = 134` bytes, yet the decode
succeeds — the final 2-byte attribute count is skipped with
`offset += 2` and never read, so the claimed bound is off by two. -/
theorem claim_C5_counterexample :
    (List.replicate 80 0 ++ [1, 0, 0, 0] ++ List.replicate 48 0 : List ℕ).length <
      84 + getUint32 (List.replicate 80 0 ++ [1, 0, 0, 0] ++ List.replicate 48 0) 80 * 50 ∧
    parseSTL (List.replicate 80 0 ++ [1, 0, 0, 0] ++ List.replicate 48 0) ≠
      Except.error () := by
  constructor
  · decide
  · decide

/-- Claim C5 (amended): the STL decode fails exactly when the buffer is
shorter than `84` bytes or shorter than `84 + triangleCount * 50 - 2`
bytes (the last triangle's 2 attribute bytes are never read); in
particular a 10-byte buffer fails, and the pipeline recovers by
substituting the bed-positioned non-empty 20-unit placeholder cube. -/
theorem claim_C5 :
    (∀ buf : List ℕ, parseSTL buf = Except.error () ↔
        buf.length < 84 ∨ buf.length < 84 + getUint32 buf 80 * 50 - 2) ∧
    parseSTL (List.replicate 10 0) = Except.error () ∧
    loadSTL (List.replicate 10 0) = positionOnPrintBed (boxGeometry 20) ∧
    loadSTL (List.replicate 10 0) ≠ [] ∧
    bbMinY (loadSTL (List.replicate 10 0)) = 0 := by
  have hload : loadSTL (List.replicate 10 0) = positionOnPrintBed (boxGeometry 20) := rfl
  refine ⟨fun buf => ?_, by decide, hload, ?_, ?_⟩
  · simp only [parseSTL]
    split
    · rename_i h84
      split
      · rename_i hlen
        exact ⟨fun hcontra => Except.noConfusion hcontra, fun hor => absurd hor (by omega)⟩
      · rename_i hlen
        exact ⟨fun _ => Or.inr (by omega), fun _ => rfl⟩
    · rename_i h84
      exact ⟨fun _ => Or.inl (by omega), fun _ => rfl⟩
  · rw [hload]
    exact positionOnPrintBed_ne_nil _ (boxGeometry_ne_nil 20)
  · rw [hload]
    exact bbMinY_position _ (boxGeometry_ne_nil 20)

/-- Witness for claim C5's failure characterization at the empty buffer. -/
theorem claim_C5_witness : parseSTL [] = Except.error () :=
  (claim_C5.1 []).mpr (Or.inl (by decide))

/-! ## OBJ face triangulation (claims C6 and C9) -/

/-- Claim C6: a face line with exactly 3 in-range references emits
exactly that triangle, and one with exactly 4 references emits exactly
the two triangles split along the diagonal as `(0,1,2)` and `(0,2,3)`;
on the spec's quad scenario the decoder returns exactly 2 triangles
whose projected signed areas are both `1/2` — consistent
(counter-clockwise) winding covering the whole unit square. -/
theorem claim_C6 :
    (∀ (tv : List Vec3) (r1 r2 r3 : List Char) (a b c : Vec3),
        objLookup tv (objRefIndex r1) = Except.ok a →
        objLookup tv (objRefIndex r2) = Except.ok b →
        objLookup tv (objRefIndex r3) = Except.ok c →
        emitFace tv [r1, r2, r3] = Except.ok [a, b, c]) ∧
    (∀ (tv : List Vec3) (r1 r2 r3 r4 : List Char) (a b c d : Vec3),
        objLookup tv (objRefIndex r1) = Except.ok a →
        objLookup tv (objRefIndex r2) = Except.ok b →
        objLookup tv (objRefIndex r3) = Except.ok c →
        objLookup tv (objRefIndex r4) = Except.ok d →
        emitFace tv [r1, r2, r3, r4] = Except.ok [a, b, c, a, c, d]) ∧
    parseOBJ objQuadText =
      Except.ok [⟨0, 0, 0⟩, ⟨1, 0, 0⟩, ⟨1, 1, 0⟩, ⟨0, 0, 0⟩, ⟨1, 1, 0⟩, ⟨0, 1, 0⟩] ∧
    signedAreaZ ⟨0, 0, 0⟩ ⟨1, 0, 0⟩ ⟨1, 1, 0⟩ = 1 / 2 ∧
    signedAreaZ ⟨0, 0, 0⟩ ⟨1, 1, 0⟩ ⟨0, 1, 0⟩ = 1 / 2 := by
  refine ⟨fun tv r1 r2 r3 a b c h1 h2 h3 => ?_,
    fun tv r1 r2 r3 r4 a b c d h1 h2 h3 h4 => ?_, by decide, by norm_num [signedAreaZ],
    by norm_num [signedAreaZ]⟩
  · simp only [emitFace, List.map]
    rw [h1, h2, h3]
    rfl
  · simp only [emitFace, List.map]
    rw [h1, h2, h3, h4]
    rfl

/-- Witness for claim C6's quad rule at the spec scenario's vertex table. -/
theorem claim_C6_witness :
    emitFace [⟨0, 0, 0⟩, ⟨1, 0, 0⟩, ⟨1, 1, 0⟩, ⟨0, 1, 0⟩] [['1'], ['2'], ['3'], ['4']] =
      Except.ok [⟨0, 0, 0⟩, ⟨1, 0, 0⟩, ⟨1, 1, 0⟩, ⟨0, 0, 0⟩, ⟨1, 1, 0⟩, ⟨0, 1, 0⟩] :=
  claim_C6.2.1 [⟨0, 0, 0⟩, ⟨1, 0, 0⟩, ⟨1, 1, 0⟩, ⟨0, 1, 0⟩] ['1'] ['2'] ['3'] ['4']
    ⟨0, 0, 0⟩ ⟨1, 0, 0⟩ ⟨1, 1, 0⟩ ⟨0, 1, 0⟩ (by decide) (by decide) (by decide) (by decide)

theorem emitFace_skip (tv : List Vec3) (refs : List (List Char))
    (h3 : refs.length ≠ 3) (h4 : refs.length ≠ 4) :
    emitFace tv refs = Except.ok [] := by
  rcases refs with _ | ⟨r1, _ | ⟨r2, _ | ⟨r3, _ | ⟨r4, _ | ⟨r5, rest⟩⟩⟩⟩⟩
  · rfl
  · rfl
  · rfl
  · exact absurd rfl h3
  · exact absurd rfl h4
  · rfl

theorem objLine_skip (st : ObjState) (line : List Char) (refs : List (List Char))
    (hw : jsWords line = ['f'] :: refs) (h3 : refs.length ≠ 3) (h4 : refs.length ≠ 4) :
    objLine st line = Except.ok st := by
  simp only [objLine, hw]
  rw [emitFace_skip st.tempVertices refs h3 h4]
  show Except.ok ⟨st.tempVertices, st.out ++ []⟩ = Except.ok st
  rw [List.append_nil]

/-- Claim C9: a face line whose reference count is neither 3 nor 4 emits
no triangles at all and does not fail the decode — removing such a line
from any OBJ text leaves the decode result unchanged, so the remaining
well-formed faces' triangles are exactly what is produced. -/
theorem claim_C9 (pre post : List (List Char)) (line : List Char)
    (refs : List (List Char)) (hw : jsWords line = ['f'] :: refs)
    (h3 : refs.length ≠ 3) (h4 : refs.length ≠ 4) :
    parseOBJLines (pre ++ line :: post) = parseOBJLines (pre ++ post) := by
  rw [parseOBJLines, parseOBJLines, List.foldlM_append, List.foldlM_append]
  cases hpre : pre.foldlM objLine (⟨[], []⟩ : ObjState) with
  | error e => rfl
  | ok s =>
      show Except.map ObjState.out ((line :: post).foldlM objLine s) =
        Except.map ObjState.out (post.foldlM objLine s)
      rw [List.foldlM_cons, objLine_skip s line refs hw h3 h4]
      rfl

/-- Witness for claim C9: a 2-reference face line between well-formed
lines changes nothing. -/
theorem claim_C9_witness :
    parseOBJLines [['v', ' ', '0', ' ', '0', ' ', '0'], ['f', ' ', '1', ' ', '2']] =
      parseOBJLines [['v', ' ', '0', ' ', '0', ' ', '0']] :=
  claim_C9 [['v', ' ', '0', ' ', '0', ' ', '0']] [] ['f', ' ', '1', ' ', '2']
    [['1'], ['2']] (by decide) (by decide) (by decide)

/-! ## 3MF partial tolerance (claim C7) -/

/-- Claim C7: the 3MF conversion keeps exactly the triangles whose three
vertex indices are in range — every in-range triangle of the input
appears in the output and every output triangle comes from an in-range
input triangle — and on the spec's scenario (4 valid vertices, 2 valid
triangles, 1 triangle referencing vertex 99) it yields exactly the 2
valid triangles with no error. -/
theorem claim_C7 :
    (∀ (vs : List Vec3) (ts : List (ℕ × ℕ × ℕ)) (out : List (Vec3 × Vec3 × Vec3)),
        convert3MFToSTL vs ts = some out →
        ((∀ t ∈ ts, inRange3MF vs t = true →
            (vs.getD t.1 default, vs.getD t.2.1 default, vs.getD t.2.2 default) ∈ out) ∧
          ∀ x ∈ out, ∃ t ∈ ts, inRange3MF vs t = true ∧
            x = (vs.getD t.1 default, vs.getD t.2.1 default, vs.getD t.2.2 default))) ∧
    convert3MFToSTL [⟨0, 0, 0⟩, ⟨1, 0, 0⟩, ⟨0, 1, 0⟩, ⟨0, 0, 1⟩]
        [(0, 1, 2), (0, 2, 3), (0, 1, 99)] =
      some [(⟨0, 0, 0⟩, ⟨1, 0, 0⟩, ⟨0, 1, 0⟩), (⟨0, 0, 0⟩, ⟨0, 1, 0⟩, ⟨0, 0, 1⟩)] := by
  refine ⟨fun vs ts out h => ?_, by decide⟩
  rw [convert3MFToSTL] at h
  split at h
  · exact absurd h (by simp)
  · rw [Option.some_inj] at h
    subst h
    constructor
    · intro t ht hin
      exact List.mem_map_of_mem _ (List.mem_filter.mpr ⟨ht, hin⟩)
    · intro x hx
      obtain ⟨t, htf, rfl⟩ := List.mem_map.mp hx
      obtain ⟨hts, hin⟩ := List.mem_filter.mp htf
      exact ⟨t, hts, hin, rfl⟩

/-- Witness for claim C7: the first valid triangle of the scenario is
kept in the output. -/
theorem claim_C7_witness :
    ((⟨0, 0, 0⟩ : Vec3), (⟨1, 0, 0⟩ : Vec3), (⟨0, 1, 0⟩ : Vec3)) ∈
      [((⟨0, 0, 0⟩ : Vec3), (⟨1, 0, 0⟩ : Vec3), (⟨0, 1, 0⟩ : Vec3)),
       ((⟨0, 0, 0⟩ : Vec3), (⟨0, 1, 0⟩ : Vec3), (⟨0, 0, 1⟩ : Vec3))] :=
  (claim_C7.1 [⟨0, 0, 0⟩, ⟨1, 0, 0⟩, ⟨0, 1, 0⟩, ⟨0, 0, 1⟩]
      [(0, 1, 2), (0, 2, 3), (0, 1, 99)] _ claim_C7.2).1
    (0, 1, 2) (by decide) (by decide)

end PriceQuoter
